import Mathlib

/-!
Verification development for the synthlab browser synthesizer.

The core logic of the repository is the audio signal-chain assembly and live
reconfiguration code. Two variants exist in the sources:

* the rebuild variant (`initializeAudioChain` in the large synth component):
  on every enable/disable toggle it disposes every node, constructs fresh
  nodes from the reactive refs, and connects the enabled effects in
  canonical order followed by panner, gain, meter and the destination;
* the reconnect variant (`createAudioNodes` and `updateAudioChain` in the
  tabbed synth component): nodes are constructed once on mount, and each
  toggle only disconnects everything and reconnects the active chain with
  `Tone.connectSeries`.

Both are embedded below over a shared node vocabulary.  Numeric parameters
are modelled as rationals, the audio graph topology as an explicit list of
directed edges between node identifiers, and the Tone.js node objects as
records of the parameter fields the repository code reads or writes.
-/

/-- Identifiers of the audio-processing units owned by the component, plus
the global destination sink. -/
inductive NodeId
  | synth | filter | distortion | bitCrusher | delay | chorus | phaser
  | reverb | compressor | panner | gain | meter | destination
deriving DecidableEq, Repr

/-- A directed connection in the audio graph. -/
abbrev Edge := NodeId × NodeId

/-- The eight optional effect kinds. -/
inductive EffectKind
  | filter | distortion | bitCrusher | delay | chorus | phaser | reverb | compressor
deriving DecidableEq, Repr

/-- Node identifier of an effect kind. -/
def EffectKind.node : EffectKind → NodeId
  | .filter => .filter
  | .distortion => .distortion
  | .bitCrusher => .bitCrusher
  | .delay => .delay
  | .chorus => .chorus
  | .phaser => .phaser
  | .reverb => .reverb
  | .compressor => .compressor

/-- Oscillator shapes offered by the wave-type selector. -/
inductive OscShape | sine | square | sawtooth | triangle
deriving DecidableEq, Repr

/-- Biquad filter types offered by the filter type selector. -/
inductive FilterKind | lowpass | highpass | bandpass | notch
deriving DecidableEq, Repr

/-- The ADSR-style envelope record used by both synth components. -/
structure Envelope where
  attack : ℚ
  hold : ℚ
  decay : ℚ
  sustain : ℚ
  release : ℚ
deriving DecidableEq, Repr

/-- Fields of a `Tone.PolySynth` that the repository code sets. -/
structure SynthNode where
  oscType : OscShape
  envelope : Envelope
deriving DecidableEq, Repr

/-- Fields of a `Tone.Filter` that the repository code sets. -/
structure FilterNode where
  frequency : ℚ
  q : ℚ
  ftype : FilterKind
deriving DecidableEq, Repr

/-- Fields of a `Tone.Distortion` that the repository code sets. -/
structure DistortionNode where
  amount : ℚ
deriving DecidableEq, Repr

/-- Fields of a `Tone.BitCrusher` that the repository code sets. -/
structure BitCrusherNode where
  bits : ℚ
deriving DecidableEq, Repr

/-- Fields of a `Tone.FeedbackDelay` that the repository code sets. -/
structure DelayNode where
  delayTime : ℚ
  feedback : ℚ
  wet : ℚ
deriving DecidableEq, Repr

/-- Fields of a `Tone.Chorus` that the repository code sets.  The second
constructor argument of `Tone.Chorus` is its internal delay time. -/
structure ChorusNode where
  frequency : ℚ
  cDelayTime : ℚ
  depth : ℚ
  wet : ℚ
deriving DecidableEq, Repr

/-- Fields of a `Tone.Phaser` that the repository code sets. -/
structure PhaserNode where
  frequency : ℚ
  octaves : ℚ
  baseFrequency : ℚ
  wet : ℚ
deriving DecidableEq, Repr

/-- Fields of a `Tone.Reverb` that the repository code sets. -/
structure ReverbNode where
  decay : ℚ
  wet : ℚ
deriving DecidableEq, Repr

/-- Fields of a `Tone.Compressor` that the repository code sets. -/
structure CompressorNode where
  threshold : ℚ
  ratio : ℚ
deriving DecidableEq, Repr

/-- Fields of a `Tone.Panner` that the repository code sets. -/
structure PannerNode where
  pan : ℚ
deriving DecidableEq, Repr

/-- Fields of a `Tone.Gain` that the repository code sets. -/
structure GainUnit where
  gain : ℚ
deriving DecidableEq, Repr

/-- Fields of a `Tone.Meter` that the repository code sets. -/
structure MeterNode where
  smoothing : ℚ
deriving DecidableEq, Repr

/-- The nullable node handles held by either synth component
(`let synth: Tone.PolySynth | null = null` and friends). -/
structure Nodes where
  synth : Option SynthNode
  filter : Option FilterNode
  distortion : Option DistortionNode
  bitCrusher : Option BitCrusherNode
  delay : Option DelayNode
  chorus : Option ChorusNode
  phaser : Option PhaserNode
  reverb : Option ReverbNode
  compressor : Option CompressorNode
  panner : Option PannerNode
  gain : Option GainUnit
  meter : Option MeterNode
deriving DecidableEq, Repr

/-- Consecutive connections of a node sequence, as made by walking the
chain with `currentNode.connect(next)` or by `Tone.connectSeries`. -/
def seriesEdges : List NodeId → List Edge
  | a :: b :: rest => (a, b) :: seriesEdges (b :: rest)
  | _ => []

/-! ## Rebuild variant (the large synth component)

Reactive refs of the component, with the initial values declared in the
source. -/

/-- The reactive refs of the rebuild-variant component. -/
structure RefsA where
  oscillatorType : OscShape
  envelope : Envelope
  gainValue : ℚ
  panValue : ℚ
  filterEnabled : Bool
  filterType : FilterKind
  filterFreq : ℚ
  filterQ : ℚ
  distortionEnabled : Bool
  distortionAmount : ℚ
  reverbEnabled : Bool
  reverbWet : ℚ
  reverbRoomSize : ℚ
  delayEnabled : Bool
  delayTime : ℚ
  delayFeedback : ℚ
  delayWet : ℚ
  chorusEnabled : Bool
  chorusFreq : ℚ
  chorusDepth : ℚ
  chorusWet : ℚ
  phaserEnabled : Bool
  phaserFreq : ℚ
  phaserDepth : ℚ
  phaserWet : ℚ
  bitCrusherEnabled : Bool
  bitCrusherBits : ℚ
  bitCrusherWet : ℚ
  compressorEnabled : Bool
  compressorThreshold : ℚ
  compressorRatio : ℚ

/-- The `initializeAudioChain` function of the rebuild variant: constructs
fresh nodes from the current refs, then connects the enabled effects in
source order (filter, distortion, bitCrusher, delay, chorus, phaser,
reverb, compressor), re-applying the wet refs of delay, chorus, phaser and
reverb inside their enabled branches, and finally connects
`currentNode → panner → gain`, `gain → meter` and `gain → destination`.
Returns the constructed nodes and the list of connections made.
Construction defaults that the code leaves to Tone.js (filter Q, effect
wet, phaser octaves, chorus depth argument) are written explicitly. -/
def initAudioChainA (r : RefsA) : Nodes × List Edge :=
  let synthN : SynthNode := { oscType := r.oscillatorType, envelope := r.envelope }
  let filterN : FilterNode := { frequency := r.filterFreq, q := 1, ftype := r.filterType }
  let distortionN : DistortionNode := { amount := r.distortionAmount }
  let bitCrusherN : BitCrusherNode := { bits := r.bitCrusherBits }
  let delayN : DelayNode := { delayTime := r.delayTime, feedback := r.delayFeedback, wet := 1 }
  let chorusN : ChorusNode :=
    { frequency := r.chorusFreq, cDelayTime := r.chorusDepth, depth := 1/2, wet := 1 }
  let phaserN : PhaserNode :=
    { frequency := r.phaserFreq, octaves := 3, baseFrequency := 1000, wet := 1 }
  let reverbN : ReverbNode := { decay := r.reverbRoomSize, wet := 1 }
  let compressorN : CompressorNode :=
    { threshold := r.compressorThreshold, ratio := r.compressorRatio }
  let pannerN : PannerNode := { pan := r.panValue }
  let gainN : GainUnit := { gain := r.gainValue }
  let meterN : MeterNode := { smoothing := 4/5 }
  let s1 : List Edge × NodeId :=
    if r.filterEnabled then ([(NodeId.synth, NodeId.filter)], NodeId.filter)
    else ([], NodeId.synth)
  let s2 : List Edge × NodeId :=
    if r.distortionEnabled then (s1.1 ++ [(s1.2, NodeId.distortion)], NodeId.distortion) else s1
  let s3 : List Edge × NodeId :=
    if r.bitCrusherEnabled then (s2.1 ++ [(s2.2, NodeId.bitCrusher)], NodeId.bitCrusher) else s2
  let delayN2 := if r.delayEnabled then { delayN with wet := r.delayWet } else delayN
  let s4 : List Edge × NodeId :=
    if r.delayEnabled then (s3.1 ++ [(s3.2, NodeId.delay)], NodeId.delay) else s3
  let chorusN2 := if r.chorusEnabled then { chorusN with wet := r.chorusWet } else chorusN
  let s5 : List Edge × NodeId :=
    if r.chorusEnabled then (s4.1 ++ [(s4.2, NodeId.chorus)], NodeId.chorus) else s4
  let phaserN2 := if r.phaserEnabled then { phaserN with wet := r.phaserWet } else phaserN
  let s6 : List Edge × NodeId :=
    if r.phaserEnabled then (s5.1 ++ [(s5.2, NodeId.phaser)], NodeId.phaser) else s5
  let reverbN2 := if r.reverbEnabled then { reverbN with wet := r.reverbWet } else reverbN
  let s7 : List Edge × NodeId :=
    if r.reverbEnabled then (s6.1 ++ [(s6.2, NodeId.reverb)], NodeId.reverb) else s6
  let s8 : List Edge × NodeId :=
    if r.compressorEnabled then (s7.1 ++ [(s7.2, NodeId.compressor)], NodeId.compressor) else s7
  let edges := s8.1 ++
    [(s8.2, NodeId.panner), (NodeId.panner, NodeId.gain),
     (NodeId.gain, NodeId.meter), (NodeId.gain, NodeId.destination)]
  (⟨some synthN, some filterN, some distortionN, some bitCrusherN, some delayN2,
    some chorusN2, some phaserN2, some reverbN2, some compressorN,
    some pannerN, some gainN, some meterN⟩, edges)

/-- The enabled effect kinds of the rebuild variant, in the canonical
order named by the specification. -/
def enabledKindsA (r : RefsA) : List NodeId :=
  (if r.filterEnabled then [NodeId.filter] else []) ++
  (if r.distortionEnabled then [NodeId.distortion] else []) ++
  (if r.bitCrusherEnabled then [NodeId.bitCrusher] else []) ++
  (if r.delayEnabled then [NodeId.delay] else []) ++
  (if r.chorusEnabled then [NodeId.chorus] else []) ++
  (if r.phaserEnabled then [NodeId.phaser] else []) ++
  (if r.reverbEnabled then [NodeId.reverb] else []) ++
  (if r.compressorEnabled then [NodeId.compressor] else [])

/-- The disabled effect kinds of the rebuild variant. -/
def disabledKindsA (r : RefsA) : List NodeId :=
  (if r.filterEnabled then [] else [NodeId.filter]) ++
  (if r.distortionEnabled then [] else [NodeId.distortion]) ++
  (if r.bitCrusherEnabled then [] else [NodeId.bitCrusher]) ++
  (if r.delayEnabled then [] else [NodeId.delay]) ++
  (if r.chorusEnabled then [] else [NodeId.chorus]) ++
  (if r.phaserEnabled then [] else [NodeId.phaser]) ++
  (if r.reverbEnabled then [] else [NodeId.reverb]) ++
  (if r.compressorEnabled then [] else [NodeId.compressor])

/-- Modelled from the spec: the connected path that the claim predicts,
with the source feeding the enabled kinds in canonical order and the tail
stages panner, gain, then the meter fed by the gain in parallel with the
destination.  This is the amended form in which the meter is a side tap of
the gain rather than a series stage. -/
def specEdgesTap (ks : List NodeId) : List Edge :=
  seriesEdges (NodeId.synth :: ks ++ [NodeId.panner, NodeId.gain]) ++
    [(NodeId.gain, NodeId.meter), (NodeId.gain, NodeId.destination)]

/-- Modelled from the spec: the connected path exactly as the claim words
it, with pan, gain, meter and output in series after the enabled kinds. -/
def specEdgesSeries (ks : List NodeId) : List Edge :=
  seriesEdges (NodeId.synth :: ks ++
    [NodeId.panner, NodeId.gain, NodeId.meter, NodeId.destination])

/-- The initial ref values declared in the rebuild-variant source. -/
def refsA0 : RefsA :=
  { oscillatorType := .sine
    envelope := { attack := 1/10, hold := 1/10, decay := 1/10, sustain := 7/10, release := 1/2 }
    gainValue := 4/5
    panValue := 0
    filterEnabled := false, filterType := .lowpass, filterFreq := 2000, filterQ := 1
    distortionEnabled := false, distortionAmount := 2/5
    reverbEnabled := false, reverbWet := 3/10, reverbRoomSize := 7/10
    delayEnabled := false, delayTime := 1/4, delayFeedback := 3/10, delayWet := 3/10
    chorusEnabled := false, chorusFreq := 4, chorusDepth := 1/2, chorusWet := 1/2
    phaserEnabled := false, phaserFreq := 1/2, phaserDepth := 10, phaserWet := 1/2
    bitCrusherEnabled := false, bitCrusherBits := 8, bitCrusherWet := 1/2
    compressorEnabled := false, compressorThreshold := -20, compressorRatio := 4 }

/-- The component state of the rebuild variant: reactive refs, node
handles and the current connection topology. -/
structure StateA where
  refs : RefsA
  nodes : Nodes
  edges : List Edge

/-- The rebuild triggered by the watcher on the eight enabled refs:
`watch([filterEnabled, ...], () => initializeAudioChain())`. -/
def rebuildA (s : StateA) : StateA :=
  let p := initAudioChainA s.refs
  { refs := s.refs, nodes := p.1, edges := p.2 }

/-- Ref update performed by `setEffectEnabled` on the rebuild variant. -/
def updEnabledA (k : EffectKind) (b : Bool) (r : RefsA) : RefsA :=
  match k with
  | .filter => { r with filterEnabled := b }
  | .distortion => { r with distortionEnabled := b }
  | .bitCrusher => { r with bitCrusherEnabled := b }
  | .delay => { r with delayEnabled := b }
  | .chorus => { r with chorusEnabled := b }
  | .phaser => { r with phaserEnabled := b }
  | .reverb => { r with reverbEnabled := b }
  | .compressor => { r with compressorEnabled := b }

/-- Toggling one effect on the rebuild variant: the enabled ref changes
and the watcher on the enabled refs runs `initializeAudioChain`. -/
def setEffectEnabledA (k : EffectKind) (b : Bool) (s : StateA) : StateA :=
  rebuildA { s with refs := updEnabledA k b s.refs }

/-! Watcher callbacks of the rebuild variant.  Each one embeds a
`watch(someRef, (val) => { if (node) node.field = val })` block: when the
node handle is null the callback does nothing. -/

/-- Callback of `watch(filterFreq)`. -/
def cbFilterFreq (v : ℚ) (n : Nodes) : Nodes :=
  match n.filter with
  | none => n
  | some f => { n with filter := some { f with frequency := v } }

/-- Callback of `watch(filterQ)`. -/
def cbFilterQ (v : ℚ) (n : Nodes) : Nodes :=
  match n.filter with
  | none => n
  | some f => { n with filter := some { f with q := v } }

/-- Callback of `watch(filterType)`. -/
def cbFilterType (v : FilterKind) (n : Nodes) : Nodes :=
  match n.filter with
  | none => n
  | some f => { n with filter := some { f with ftype := v } }

/-- Callback of `watch(distortionAmount)`. -/
def cbDistortionAmount (v : ℚ) (n : Nodes) : Nodes :=
  match n.distortion with
  | none => n
  | some d => { n with distortion := some { d with amount := v } }

/-- Callback of `watch(bitCrusherBits)`. -/
def cbBitCrusherBits (v : ℚ) (n : Nodes) : Nodes :=
  match n.bitCrusher with
  | none => n
  | some b => { n with bitCrusher := some { b with bits := v } }

/-- Callback of `watch(delayTime)`. -/
def cbDelayTime (v : ℚ) (n : Nodes) : Nodes :=
  match n.delay with
  | none => n
  | some d => { n with delay := some { d with delayTime := v } }

/-- Callback of `watch(delayFeedback)`. -/
def cbDelayFeedback (v : ℚ) (n : Nodes) : Nodes :=
  match n.delay with
  | none => n
  | some d => { n with delay := some { d with feedback := v } }

/-- Callback of `watch(delayWet)`. -/
def cbDelayWet (v : ℚ) (n : Nodes) : Nodes :=
  match n.delay with
  | none => n
  | some d => { n with delay := some { d with wet := v } }

/-- Callback of `watch(chorusFreq)`. -/
def cbChorusFreq (v : ℚ) (n : Nodes) : Nodes :=
  match n.chorus with
  | none => n
  | some c => { n with chorus := some { c with frequency := v } }

/-- Callback of `watch(chorusDepth)`. -/
def cbChorusDepth (v : ℚ) (n : Nodes) : Nodes :=
  match n.chorus with
  | none => n
  | some c => { n with chorus := some { c with depth := v } }

/-- Callback of `watch(chorusWet)`. -/
def cbChorusWet (v : ℚ) (n : Nodes) : Nodes :=
  match n.chorus with
  | none => n
  | some c => { n with chorus := some { c with wet := v } }

/-- Callback of `watch(phaserFreq)`. -/
def cbPhaserFreq (v : ℚ) (n : Nodes) : Nodes :=
  match n.phaser with
  | none => n
  | some p => { n with phaser := some { p with frequency := v } }

/-- Callback of `watch(phaserWet)`. -/
def cbPhaserWet (v : ℚ) (n : Nodes) : Nodes :=
  match n.phaser with
  | none => n
  | some p => { n with phaser := some { p with wet := v } }

/-- Callback of `watch(reverbWet)`. -/
def cbReverbWet (v : ℚ) (n : Nodes) : Nodes :=
  match n.reverb with
  | none => n
  | some rv => { n with reverb := some { rv with wet := v } }

/-- Callback of `watch(compressorThreshold)`. -/
def cbCompressorThreshold (v : ℚ) (n : Nodes) : Nodes :=
  match n.compressor with
  | none => n
  | some c => { n with compressor := some { c with threshold := v } }

/-- Callback of `watch(compressorRatio)`. -/
def cbCompressorRatio (v : ℚ) (n : Nodes) : Nodes :=
  match n.compressor with
  | none => n
  | some c => { n with compressor := some { c with ratio := v } }

/-! Full parameter updates on the rebuild variant: the UI writes the ref
and the corresponding watcher callback fires.  Topology is untouched. -/

/-- Set the filter frequency ref (and run its watcher). -/
def setFilterFreqA (v : ℚ) (s : StateA) : StateA :=
  { refs := { s.refs with filterFreq := v }, nodes := cbFilterFreq v s.nodes, edges := s.edges }

/-- Set the filter Q ref (and run its watcher). -/
def setFilterQA (v : ℚ) (s : StateA) : StateA :=
  { refs := { s.refs with filterQ := v }, nodes := cbFilterQ v s.nodes, edges := s.edges }

/-- Set the filter type ref (and run its watcher). -/
def setFilterTypeA (v : FilterKind) (s : StateA) : StateA :=
  { refs := { s.refs with filterType := v }, nodes := cbFilterType v s.nodes, edges := s.edges }

/-- Set the distortion amount ref (and run its watcher). -/
def setDistortionAmountA (v : ℚ) (s : StateA) : StateA :=
  { refs := { s.refs with distortionAmount := v }
    nodes := cbDistortionAmount v s.nodes, edges := s.edges }

/-- Set the bit crusher bits ref (and run its watcher). -/
def setBitCrusherBitsA (v : ℚ) (s : StateA) : StateA :=
  { refs := { s.refs with bitCrusherBits := v }
    nodes := cbBitCrusherBits v s.nodes, edges := s.edges }

/-- Set the delay time ref (and run its watcher). -/
def setDelayTimeA (v : ℚ) (s : StateA) : StateA :=
  { refs := { s.refs with delayTime := v }, nodes := cbDelayTime v s.nodes, edges := s.edges }

/-- Set the delay feedback ref (and run its watcher). -/
def setDelayFeedbackA (v : ℚ) (s : StateA) : StateA :=
  { refs := { s.refs with delayFeedback := v }
    nodes := cbDelayFeedback v s.nodes, edges := s.edges }

/-- Set the delay wet ref (and run its watcher). -/
def setDelayWetA (v : ℚ) (s : StateA) : StateA :=
  { refs := { s.refs with delayWet := v }, nodes := cbDelayWet v s.nodes, edges := s.edges }

/-- Set the chorus frequency ref (and run its watcher). -/
def setChorusFreqA (v : ℚ) (s : StateA) : StateA :=
  { refs := { s.refs with chorusFreq := v }, nodes := cbChorusFreq v s.nodes, edges := s.edges }

/-- Set the chorus depth ref (and run its watcher). -/
def setChorusDepthA (v : ℚ) (s : StateA) : StateA :=
  { refs := { s.refs with chorusDepth := v }, nodes := cbChorusDepth v s.nodes, edges := s.edges }

/-- Set the chorus wet ref (and run its watcher). -/
def setChorusWetA (v : ℚ) (s : StateA) : StateA :=
  { refs := { s.refs with chorusWet := v }, nodes := cbChorusWet v s.nodes, edges := s.edges }

/-- Set the phaser frequency ref (and run its watcher). -/
def setPhaserFreqA (v : ℚ) (s : StateA) : StateA :=
  { refs := { s.refs with phaserFreq := v }, nodes := cbPhaserFreq v s.nodes, edges := s.edges }

/-- Set the phaser wet ref (and run its watcher). -/
def setPhaserWetA (v : ℚ) (s : StateA) : StateA :=
  { refs := { s.refs with phaserWet := v }, nodes := cbPhaserWet v s.nodes, edges := s.edges }

/-- Set the reverb wet ref (and run its watcher). -/
def setReverbWetA (v : ℚ) (s : StateA) : StateA :=
  { refs := { s.refs with reverbWet := v }, nodes := cbReverbWet v s.nodes, edges := s.edges }

/-- Set the compressor threshold ref (and run its watcher). -/
def setCompressorThresholdA (v : ℚ) (s : StateA) : StateA :=
  { refs := { s.refs with compressorThreshold := v }
    nodes := cbCompressorThreshold v s.nodes, edges := s.edges }

/-- Set the compressor ratio ref (and run its watcher). -/
def setCompressorRatioA (v : ℚ) (s : StateA) : StateA :=
  { refs := { s.refs with compressorRatio := v }
    nodes := cbCompressorRatio v s.nodes, edges := s.edges }

/-! ## Reconnect variant (the tabbed synth component) -/

/-- The `filterProps` ref of the reconnect variant. -/
structure FilterProps where
  enabled : Bool
  ftype : FilterKind
  freq : ℚ
  q : ℚ
deriving DecidableEq, Repr

/-- The `distortionProps` ref of the reconnect variant. -/
structure DistortionProps where
  enabled : Bool
  amount : ℚ
deriving DecidableEq, Repr

/-- The `bitCrusherProps` ref of the reconnect variant. -/
structure BitCrusherProps where
  enabled : Bool
  bits : ℚ
deriving DecidableEq, Repr

/-- The `delayProps` ref of the reconnect variant. -/
structure DelayProps where
  enabled : Bool
  time : ℚ
  feedback : ℚ
  wet : ℚ
deriving DecidableEq, Repr

/-- The `reverbProps` ref of the reconnect variant. -/
structure ReverbProps where
  enabled : Bool
  wet : ℚ
  roomSize : ℚ
deriving DecidableEq, Repr

/-- The `compressorProps` ref of the reconnect variant. -/
structure CompressorProps where
  enabled : Bool
  threshold : ℚ
  ratio : ℚ
deriving DecidableEq, Repr

/-- The `chorusProps` ref of the reconnect variant. -/
structure ChorusProps where
  enabled : Bool
  freq : ℚ
  depth : ℚ
  wet : ℚ
deriving DecidableEq, Repr

/-- The `phaserProps` ref of the reconnect variant (depth maps to
octaves). -/
structure PhaserProps where
  enabled : Bool
  freq : ℚ
  depth : ℚ
  wet : ℚ
deriving DecidableEq, Repr

/-- The reactive refs of the reconnect-variant component. -/
structure RefsB where
  oscillatorType : OscShape
  envelope : Envelope
  gainValue : ℚ
  panValue : ℚ
  filterProps : FilterProps
  distortionProps : DistortionProps
  bitCrusherProps : BitCrusherProps
  delayProps : DelayProps
  reverbProps : ReverbProps
  compressorProps : CompressorProps
  chorusProps : ChorusProps
  phaserProps : PhaserProps

/-- The `createAudioNodes` function of the reconnect variant: constructs
every node once from the current refs and then sets the initial wet values
of delay, chorus, phaser and reverb from their props.  Construction
defaults left to Tone.js are written explicitly. -/
def createAudioNodesB (r : RefsB) : Nodes :=
  { synth := some { oscType := r.oscillatorType, envelope := r.envelope }
    panner := some { pan := r.panValue }
    gain := some { gain := r.gainValue }
    meter := some { smoothing := 4/5 }
    filter := some { frequency := r.filterProps.freq, q := 1, ftype := r.filterProps.ftype }
    distortion := some { amount := r.distortionProps.amount }
    bitCrusher := some { bits := r.bitCrusherProps.bits }
    delay := some { delayTime := r.delayProps.time, feedback := r.delayProps.feedback
                    wet := r.delayProps.wet }
    chorus := some { frequency := r.chorusProps.freq, cDelayTime := r.chorusProps.depth
                     depth := 1/2, wet := r.chorusProps.wet }
    phaser := some { frequency := r.phaserProps.freq, octaves := r.phaserProps.depth
                     baseFrequency := 1000, wet := r.phaserProps.wet }
    reverb := some { decay := r.reverbProps.roomSize, wet := r.reverbProps.wet }
    compressor := some { threshold := r.compressorProps.threshold
                         ratio := r.compressorProps.ratio } }

/-- The component state of the reconnect variant. -/
structure StateB where
  refs : RefsB
  nodes : Nodes
  edges : List Edge

/-- The `updateAudioChain` function of the reconnect variant: returns
unchanged when synth, panner or gain is missing; otherwise disconnects
everything and reconnects `connectSeries(synth, ...activeEffects, panner,
gainNode)` followed by `gainNode.connect(meter)` and
`gainNode.toDestination()`.  Each effect joins the active list when its
enabled prop is set and its node handle is non-null.  Only the edge list
changes. -/
def updateAudioChainB (s : StateB) : StateB :=
  match s.nodes.synth, s.nodes.panner, s.nodes.gain with
  | some _, some _, some _ =>
    let activeEffects : List NodeId :=
      (if s.refs.filterProps.enabled && s.nodes.filter.isSome then [NodeId.filter] else []) ++
      (if s.refs.distortionProps.enabled && s.nodes.distortion.isSome
        then [NodeId.distortion] else []) ++
      (if s.refs.bitCrusherProps.enabled && s.nodes.bitCrusher.isSome
        then [NodeId.bitCrusher] else []) ++
      (if s.refs.delayProps.enabled && s.nodes.delay.isSome then [NodeId.delay] else []) ++
      (if s.refs.chorusProps.enabled && s.nodes.chorus.isSome then [NodeId.chorus] else []) ++
      (if s.refs.phaserProps.enabled && s.nodes.phaser.isSome then [NodeId.phaser] else []) ++
      (if s.refs.reverbProps.enabled && s.nodes.reverb.isSome then [NodeId.reverb] else []) ++
      (if s.refs.compressorProps.enabled && s.nodes.compressor.isSome
        then [NodeId.compressor] else [])
    let chain := NodeId.synth :: activeEffects ++ [NodeId.panner, NodeId.gain]
    { s with edges := seriesEdges chain ++
        [(NodeId.gain, NodeId.meter), (NodeId.gain, NodeId.destination)] }
  | _, _, _ => s

/-- Ref update performed by an enabled toggle on the reconnect variant. -/
def updEnabledB (k : EffectKind) (b : Bool) (r : RefsB) : RefsB :=
  match k with
  | .filter => { r with filterProps := { r.filterProps with enabled := b } }
  | .distortion => { r with distortionProps := { r.distortionProps with enabled := b } }
  | .bitCrusher => { r with bitCrusherProps := { r.bitCrusherProps with enabled := b } }
  | .delay => { r with delayProps := { r.delayProps with enabled := b } }
  | .chorus => { r with chorusProps := { r.chorusProps with enabled := b } }
  | .phaser => { r with phaserProps := { r.phaserProps with enabled := b } }
  | .reverb => { r with reverbProps := { r.reverbProps with enabled := b } }
  | .compressor => { r with compressorProps := { r.compressorProps with enabled := b } }

/-- Toggling one effect on the reconnect variant: the enabled prop changes
and the watcher on the enabled flags runs `updateAudioChain` (it never
recreates nodes). -/
def setEffectEnabledB (k : EffectKind) (b : Bool) (s : StateB) : StateB :=
  updateAudioChainB { s with refs := updEnabledB k b s.refs }

/-- A sequence of enable/disable toggles applied in order on the
reconnect variant. -/
def applyTogglesB (ops : List (EffectKind × Bool)) (s : StateB) : StateB :=
  ops.foldl (fun t op => setEffectEnabledB op.1 op.2 t) s

/-- The enabled effect kinds of the reconnect variant, in the canonical
order named by the specification. -/
def enabledKindsB (r : RefsB) : List NodeId :=
  (if r.filterProps.enabled then [NodeId.filter] else []) ++
  (if r.distortionProps.enabled then [NodeId.distortion] else []) ++
  (if r.bitCrusherProps.enabled then [NodeId.bitCrusher] else []) ++
  (if r.delayProps.enabled then [NodeId.delay] else []) ++
  (if r.chorusProps.enabled then [NodeId.chorus] else []) ++
  (if r.phaserProps.enabled then [NodeId.phaser] else []) ++
  (if r.reverbProps.enabled then [NodeId.reverb] else []) ++
  (if r.compressorProps.enabled then [NodeId.compressor] else [])

/-- The disabled effect kinds of the reconnect variant. -/
def disabledKindsB (r : RefsB) : List NodeId :=
  (if r.filterProps.enabled then [] else [NodeId.filter]) ++
  (if r.distortionProps.enabled then [] else [NodeId.distortion]) ++
  (if r.bitCrusherProps.enabled then [] else [NodeId.bitCrusher]) ++
  (if r.delayProps.enabled then [] else [NodeId.delay]) ++
  (if r.chorusProps.enabled then [] else [NodeId.chorus]) ++
  (if r.phaserProps.enabled then [] else [NodeId.phaser]) ++
  (if r.reverbProps.enabled then [] else [NodeId.reverb]) ++
  (if r.compressorProps.enabled then [] else [NodeId.compressor])

/-! Watcher callbacks of the reconnect variant: one consolidated deep
watcher per effect props ref. -/

/-- Callback of `watch(filterProps, ..., deep)`. -/
def cbFilterPropsB (val : FilterProps) (n : Nodes) : Nodes :=
  match n.filter with
  | none => n
  | some f => { n with filter := some ({ f with frequency := val.freq, q := val.q, ftype := val.ftype }) }

/-- Callback of `watch(distortionProps, ..., deep)`. -/
def cbDistortionPropsB (val : DistortionProps) (n : Nodes) : Nodes :=
  match n.distortion with
  | none => n
  | some d => { n with distortion := some { d with amount := val.amount } }

/-- Callback of `watch(bitCrusherProps, ..., deep)`. -/
def cbBitCrusherPropsB (val : BitCrusherProps) (n : Nodes) : Nodes :=
  match n.bitCrusher with
  | none => n
  | some b => { n with bitCrusher := some { b with bits := val.bits } }

/-- Callback of `watch(delayProps, ..., deep)`. -/
def cbDelayPropsB (val : DelayProps) (n : Nodes) : Nodes :=
  match n.delay with
  | none => n
  | some d => { n with delay := some ({ d with delayTime := val.time, feedback := val.feedback, wet := val.wet }) }

/-- Callback of `watch(reverbProps, ..., deep)`. -/
def cbReverbPropsB (val : ReverbProps) (n : Nodes) : Nodes :=
  match n.reverb with
  | none => n
  | some rv => { n with reverb := some { rv with decay := val.roomSize, wet := val.wet } }

/-- Callback of `watch(compressorProps, ..., deep)`. -/
def cbCompressorPropsB (val : CompressorProps) (n : Nodes) : Nodes :=
  match n.compressor with
  | none => n
  | some c => { n with compressor := some ({ c with threshold := val.threshold, ratio := val.ratio }) }

/-- Callback of `watch(chorusProps, ..., deep)`. -/
def cbChorusPropsB (val : ChorusProps) (n : Nodes) : Nodes :=
  match n.chorus with
  | none => n
  | some c => { n with chorus := some ({ c with frequency := val.freq, depth := val.depth, wet := val.wet }) }

/-- Callback of `watch(phaserProps, ..., deep)`. -/
def cbPhaserPropsB (val : PhaserProps) (n : Nodes) : Nodes :=
  match n.phaser with
  | none => n
  | some p => { n with phaser := some ({ p with frequency := val.freq, octaves := val.depth, wet := val.wet }) }

/-- Parameter update of the filter props on the reconnect variant. -/
def setFilterPropsB (val : FilterProps) (s : StateB) : StateB :=
  { refs := { s.refs with filterProps := val }
    nodes := cbFilterPropsB val s.nodes, edges := s.edges }

/-- Parameter update of the distortion props on the reconnect variant. -/
def setDistortionPropsB (val : DistortionProps) (s : StateB) : StateB :=
  { refs := { s.refs with distortionProps := val }
    nodes := cbDistortionPropsB val s.nodes, edges := s.edges }

/-- Parameter update of the bit crusher props on the reconnect variant. -/
def setBitCrusherPropsB (val : BitCrusherProps) (s : StateB) : StateB :=
  { refs := { s.refs with bitCrusherProps := val }
    nodes := cbBitCrusherPropsB val s.nodes, edges := s.edges }

/-- Parameter update of the delay props on the reconnect variant. -/
def setDelayPropsB (val : DelayProps) (s : StateB) : StateB :=
  { refs := { s.refs with delayProps := val }
    nodes := cbDelayPropsB val s.nodes, edges := s.edges }

/-- Parameter update of the reverb props on the reconnect variant. -/
def setReverbPropsB (val : ReverbProps) (s : StateB) : StateB :=
  { refs := { s.refs with reverbProps := val }
    nodes := cbReverbPropsB val s.nodes, edges := s.edges }

/-- Parameter update of the compressor props on the reconnect variant. -/
def setCompressorPropsB (val : CompressorProps) (s : StateB) : StateB :=
  { refs := { s.refs with compressorProps := val }
    nodes := cbCompressorPropsB val s.nodes, edges := s.edges }

/-- Parameter update of the chorus props on the reconnect variant. -/
def setChorusPropsB (val : ChorusProps) (s : StateB) : StateB :=
  { refs := { s.refs with chorusProps := val }
    nodes := cbChorusPropsB val s.nodes, edges := s.edges }

/-- Parameter update of the phaser props on the reconnect variant. -/
def setPhaserPropsB (val : PhaserProps) (s : StateB) : StateB :=
  { refs := { s.refs with phaserProps := val }
    nodes := cbPhaserPropsB val s.nodes, edges := s.edges }

/-! ## Node lifecycle (registry) model

`initializeAudioChain` begins with twelve `node?.dispose()` calls and only
then constructs the twelve fresh nodes; `onBeforeUnmount` performs the
same twelve disposals.  Liveness is tracked per kind together with a
creation generation so that nodes of different builds can be told apart.
A `?.dispose()` call on a null handle, and a `dispose` of an already
disposed node, are no-ops and never throw. -/

/-- One lifecycle event performed by the component. -/
inductive RegEvent
  | dispose (k : NodeId)
  | create (k : NodeId)
deriving DecidableEq, Repr

/-- Liveness registry: for each owned kind, the generation of the live
node if one exists, plus the next fresh generation. -/
structure Registry where
  nextGen : Nat
  synth : Option Nat
  filter : Option Nat
  distortion : Option Nat
  bitCrusher : Option Nat
  delay : Option Nat
  chorus : Option Nat
  phaser : Option Nat
  reverb : Option Nat
  compressor : Option Nat
  panner : Option Nat
  gain : Option Nat
  meter : Option Nat

/-- Look up the live node of a kind (the destination is global and never
owned by the registry). -/
def Registry.get (s : Registry) : NodeId → Option Nat
  | .synth => s.synth
  | .filter => s.filter
  | .distortion => s.distortion
  | .bitCrusher => s.bitCrusher
  | .delay => s.delay
  | .chorus => s.chorus
  | .phaser => s.phaser
  | .reverb => s.reverb
  | .compressor => s.compressor
  | .panner => s.panner
  | .gain => s.gain
  | .meter => s.meter
  | .destination => none

/-- Replace the live node entry of a kind. -/
def Registry.put (s : Registry) (k : NodeId) (v : Option Nat) : Registry :=
  match k with
  | .synth => { s with synth := v }
  | .filter => { s with filter := v }
  | .distortion => { s with distortion := v }
  | .bitCrusher => { s with bitCrusher := v }
  | .delay => { s with delay := v }
  | .chorus => { s with chorus := v }
  | .phaser => { s with phaser := v }
  | .reverb => { s with reverb := v }
  | .compressor => { s with compressor := v }
  | .panner => { s with panner := v }
  | .gain => { s with gain := v }
  | .meter => { s with meter := v }
  | .destination => s

/-- Apply one lifecycle event: disposal drops the live node of the kind
(a no-op when none is live), creation installs a fresh generation. -/
def applyEvent (s : Registry) : RegEvent → Registry
  | .dispose k => s.put k none
  | .create k => { s.put k (some s.nextGen) with nextGen := s.nextGen + 1 }

/-- Apply a list of lifecycle events in order. -/
def applyTrace (s : Registry) (es : List RegEvent) : Registry :=
  es.foldl applyEvent s

/-- The twelve owned kinds, in the order both the dispose block and the
construction block of the source traverse them. -/
def ownedKinds : List NodeId :=
  [.synth, .filter, .distortion, .bitCrusher, .delay, .chorus, .phaser,
   .reverb, .compressor, .panner, .gain, .meter]

/-- The lifecycle events of one `initializeAudioChain` call, in source
order: twelve disposals (synth through meter) followed by twelve
constructions in the same kind order. -/
def initTraceA : List RegEvent :=
  [.dispose .synth, .dispose .filter, .dispose .distortion, .dispose .bitCrusher,
   .dispose .delay, .dispose .chorus, .dispose .phaser, .dispose .reverb,
   .dispose .compressor, .dispose .panner, .dispose .gain, .dispose .meter,
   .create .synth, .create .filter, .create .distortion, .create .bitCrusher,
   .create .delay, .create .chorus, .create .phaser, .create .reverb,
   .create .compressor, .create .panner, .create .gain, .create .meter]

/-- The teardown run by `onBeforeUnmount`: every owned node is disposed
(null-safely) in source order. -/
def disposeAllReg (s : Registry) : Registry :=
  applyTrace s (ownedKinds.map RegEvent.dispose)

/-! ## Note triggering model

`noteOn`/`noteOff` of the shared audio-graph module: the trigger is
forwarded to every synth unconditionally and the shared active-note set is
updated with JavaScript `Set` semantics (`add` keeps an existing element
unique, `delete` removes it). -/

/-- Observable trigger history of one `Tone.PolySynth`. -/
structure SynthVoice where
  attacks : List String
  releases : List String
deriving DecidableEq, Repr

/-- State of the shared audio-graph module: the synth list and the shared
active-note set (modelled as a duplicate-free insertion-ordered list). -/
structure GraphState where
  synths : List SynthVoice
  activeNotes : List String
deriving DecidableEq, Repr

/-- JavaScript `Set.add`: appends the element unless already present. -/
def addNote (note : String) (l : List String) : List String :=
  if note ∈ l then l else l ++ [note]

/-- JavaScript `Set.delete`: removes the element. -/
def removeNote (note : String) (l : List String) : List String :=
  l.filter (fun m => m ≠ note)

/-- `noteOn(note)`: `synths.value.forEach((s) => s.synth.triggerAttack(note));
activeNotes.value.add(note)`. -/
def noteOn (note : String) (s : GraphState) : GraphState :=
  { synths := s.synths.map (fun v => { v with attacks := v.attacks ++ [note] })
    activeNotes := addNote note s.activeNotes }

/-- `noteOff(note)`: `synths.value.forEach((s) => s.synth.triggerRelease(note));
activeNotes.value.delete(note)`. -/
def noteOff (note : String) (s : GraphState) : GraphState :=
  { synths := s.synths.map (fun v => { v with releases := v.releases ++ [note] })
    activeNotes := removeNote note s.activeNotes }

/-- The note name used by the concrete scenarios. -/
def noteC4 : String := "C4"

/-! ## Meter publishing model

The 50ms polling tick runs
`normalized.value = val === -Infinity ? 0 : Tone.dbToGain(val)`.
A raw meter reading is either negative infinity or a finite decibel
value; `Tone.dbToGain(db)` is `10 ^ (db / 20)`, modelled over the reals
(the float rounding of the JavaScript runtime is not modelled). -/

/-- A raw reading returned by `meter.getValue()`. -/
inductive MeterReading
  | negInf
  | db (d : ℚ)
deriving DecidableEq, Repr

/-- Real-valued model of `Tone.dbToGain`. -/
noncomputable def dbToGain (d : ℚ) : ℝ := (10 : ℝ) ^ ((d : ℝ) / 20)

/-- The value published into `normalized` by one polling tick. -/
noncomputable def publishMeter : MeterReading → ℝ
  | .negInf => 0
  | .db d => dbToGain d

/-- The raw reading is at most 0 dBFS (true of readings of signals within
full scale; the code itself never enforces it). -/
def nonposReading : MeterReading → Prop
  | .negInf => True
  | .db d => d ≤ 0

instance : ∀ r, Decidable (nonposReading r)
  | .negInf => isTrue trivial
  | .db d => inferInstanceAs (Decidable (d ≤ 0))

/-! ## Envelope drag-editor model -/

/-- The point being dragged in the envelope editor. -/
inductive DragPoint | attack | hold | decay | sustain
deriving DecidableEq, Repr

/-- The envelope well-formedness stated by the data model: non-negative
times and a 0..1 sustain level. -/
def Envelope.inv (e : Envelope) : Prop :=
  0 ≤ e.attack ∧ 0 ≤ e.hold ∧ 0 ≤ e.decay ∧ 0 ≤ e.release ∧
    0 ≤ e.sustain ∧ e.sustain ≤ 1

instance (e : Envelope) : Decidable e.inv :=
  inferInstanceAs (Decidable (_ ∧ _ ∧ _ ∧ _ ∧ _ ∧ _))

/-- The `handleMouseMove` drag handler of the rebuild-variant synth
component: recovers SVG coordinates from the mouse event and the bounding
rectangle, clamps them to 0..1, and updates the dragged envelope field;
time fields are clamped to at least 0.01 and a sustain drag also stretches
the decay. -/
def handleMouseMoveA (p : DragPoint) (clientX rectLeft rectWidth clientY rectTop rectHeight
    svgW svgH : ℚ) (env : Envelope) : Envelope :=
  let x := ((clientX - rectLeft) / rectWidth) * svgW
  let y := ((clientY - rectTop) / rectHeight) * svgH
  let normalizedX := max 0 (min 1 (x / svgW))
  let normalizedY := max 0 (min 1 (1 - y / svgH))
  match p with
  | .attack => { env with attack := max (1/100) (normalizedX * 2) }
  | .hold => { env with hold := max (1/100) (normalizedX * 2) }
  | .decay => { env with decay := max (1/100) (normalizedX * 2) }
  | .sustain =>
    let env2 := { env with sustain := normalizedY }
    let sustainNormalizedX := normalizedX * 2
    { env2 with decay := max (1/100) (sustainNormalizedX - env2.attack - env2.hold) }

/-- The `handleMouseMove` drag handler of the envelope-controls component
(fixed 300px SVG height): only a sustain drag changes the envelope, to
`1 - clamp(y / svgHeight, 0, 1)`; with no drag point it returns
unchanged. -/
def handleMouseMoveEnv (draggingPoint : Option DragPoint) (clientY rectTop : ℚ)
    (env : Envelope) : Envelope :=
  match draggingPoint with
  | none => env
  | some p =>
    let y := clientY - rectTop
    let value := 1 - max 0 (min (y / 300) 1)
    match p with
    | .sustain => { env with sustain := value }
    | _ => env

/-! ## Claim C1: topology after a rebuild -/

/-- The connect phase of `initializeAudioChain` as a function of the eight
enabled flags alone (definitionally equal to the edge component of
`initAudioChainA`). -/
def canonicalChainEdgesA (fE dE bE dlE cE pE rE coE : Bool) : List Edge :=
  let s1 : List Edge × NodeId :=
    if fE then ([(NodeId.synth, NodeId.filter)], NodeId.filter)
    else ([], NodeId.synth)
  let s2 : List Edge × NodeId :=
    if dE then (s1.1 ++ [(s1.2, NodeId.distortion)], NodeId.distortion) else s1
  let s3 : List Edge × NodeId :=
    if bE then (s2.1 ++ [(s2.2, NodeId.bitCrusher)], NodeId.bitCrusher) else s2
  let s4 : List Edge × NodeId :=
    if dlE then (s3.1 ++ [(s3.2, NodeId.delay)], NodeId.delay) else s3
  let s5 : List Edge × NodeId :=
    if cE then (s4.1 ++ [(s4.2, NodeId.chorus)], NodeId.chorus) else s4
  let s6 : List Edge × NodeId :=
    if pE then (s5.1 ++ [(s5.2, NodeId.phaser)], NodeId.phaser) else s5
  let s7 : List Edge × NodeId :=
    if rE then (s6.1 ++ [(s6.2, NodeId.reverb)], NodeId.reverb) else s6
  let s8 : List Edge × NodeId :=
    if coE then (s7.1 ++ [(s7.2, NodeId.compressor)], NodeId.compressor) else s7
  s8.1 ++
    [(s8.2, NodeId.panner), (NodeId.panner, NodeId.gain),
     (NodeId.gain, NodeId.meter), (NodeId.gain, NodeId.destination)]

/-- The canonical-order selection of enabled kinds as a function of the
eight flags. -/
def activeListF (fE dE bE dlE cE pE rE coE : Bool) : List NodeId :=
  (if fE then [NodeId.filter] else []) ++
  (if dE then [NodeId.distortion] else []) ++
  (if bE then [NodeId.bitCrusher] else []) ++
  (if dlE then [NodeId.delay] else []) ++
  (if cE then [NodeId.chorus] else []) ++
  (if pE then [NodeId.phaser] else []) ++
  (if rE then [NodeId.reverb] else []) ++
  (if coE then [NodeId.compressor] else [])

/-- The disabled kinds as a function of the eight flags. -/
def disabledListF (fE dE bE dlE cE pE rE coE : Bool) : List NodeId :=
  (if fE then [] else [NodeId.filter]) ++
  (if dE then [] else [NodeId.distortion]) ++
  (if bE then [] else [NodeId.bitCrusher]) ++
  (if dlE then [] else [NodeId.delay]) ++
  (if cE then [] else [NodeId.chorus]) ++
  (if pE then [] else [NodeId.phaser]) ++
  (if rE then [] else [NodeId.reverb]) ++
  (if coE then [] else [NodeId.compressor])

/-- The chain `updateAudioChain` connects, as a function of the eight
enabled flags (definitionally equal to the edges it leaves when every
node handle is non-null). -/
def chainEdgesListB (fE dE bE dlE cE pE rE coE : Bool) : List Edge :=
  seriesEdges (NodeId.synth ::
    ((if fE && true then [NodeId.filter] else []) ++
     (if dE && true then [NodeId.distortion] else []) ++
     (if bE && true then [NodeId.bitCrusher] else []) ++
     (if dlE && true then [NodeId.delay] else []) ++
     (if cE && true then [NodeId.chorus] else []) ++
     (if pE && true then [NodeId.phaser] else []) ++
     (if rE && true then [NodeId.reverb] else []) ++
     (if coE && true then [NodeId.compressor] else [])) ++
    [NodeId.panner, NodeId.gain]) ++
    [(NodeId.gain, NodeId.meter), (NodeId.gain, NodeId.destination)]

lemma edgesA_eq_canonical (r : RefsA) :
    (initAudioChainA r).2 = canonicalChainEdgesA r.filterEnabled r.distortionEnabled
      r.bitCrusherEnabled r.delayEnabled r.chorusEnabled r.phaserEnabled
      r.reverbEnabled r.compressorEnabled := rfl

lemma enabledKindsA_eq (r : RefsA) :
    enabledKindsA r = activeListF r.filterEnabled r.distortionEnabled
      r.bitCrusherEnabled r.delayEnabled r.chorusEnabled r.phaserEnabled
      r.reverbEnabled r.compressorEnabled := rfl

lemma disabledKindsA_eq (r : RefsA) :
    disabledKindsA r = disabledListF r.filterEnabled r.distortionEnabled
      r.bitCrusherEnabled r.delayEnabled r.chorusEnabled r.phaserEnabled
      r.reverbEnabled r.compressorEnabled := rfl

lemma edgesB_eq_list (r r' : RefsB) (e0 : List Edge) :
    (updateAudioChainB ⟨r, createAudioNodesB r', e0⟩).edges =
      chainEdgesListB r.filterProps.enabled r.distortionProps.enabled
        r.bitCrusherProps.enabled r.delayProps.enabled r.chorusProps.enabled
        r.phaserProps.enabled r.reverbProps.enabled r.compressorProps.enabled := rfl

lemma enabledKindsB_eq (r : RefsB) :
    enabledKindsB r = activeListF r.filterProps.enabled r.distortionProps.enabled
      r.bitCrusherProps.enabled r.delayProps.enabled r.chorusProps.enabled
      r.phaserProps.enabled r.reverbProps.enabled r.compressorProps.enabled := rfl

lemma disabledKindsB_eq (r : RefsB) :
    disabledKindsB r = disabledListF r.filterProps.enabled r.distortionProps.enabled
      r.bitCrusherProps.enabled r.delayProps.enabled r.chorusProps.enabled
      r.phaserProps.enabled r.reverbProps.enabled r.compressorProps.enabled := rfl

lemma canonical_chain_core_A : ∀ fE dE bE dlE cE pE rE coE : Bool,
    canonicalChainEdgesA fE dE bE dlE cE pE rE coE =
      specEdgesTap (activeListF fE dE bE dlE cE pE rE coE) ∧
    ∀ k ∈ disabledListF fE dE bE dlE cE pE rE coE,
      ∀ e ∈ canonicalChainEdgesA fE dE bE dlE cE pE rE coE, e.1 ≠ k ∧ e.2 ≠ k := by
  decide

lemma canonical_chain_core_B : ∀ fE dE bE dlE cE pE rE coE : Bool,
    chainEdgesListB fE dE bE dlE cE pE rE coE =
      specEdgesTap (activeListF fE dE bE dlE cE pE rE coE) ∧
    ∀ k ∈ disabledListF fE dE bE dlE cE pE rE coE,
      ∀ e ∈ chainEdgesListB fE dE bE dlE cE pE rE coE, e.1 ≠ k ∧ e.2 ≠ k := by
  decide

/-- Claim C1, corrected.  For every subset of enabled effect kinds, a
rebuild connects SoundSource through exactly the enabled kinds in the
canonical order filter, distortion, bitCrusher, delay, chorus, phaser,
reverb, compressor, then panner and gain in series, with the gain feeding
both the meter and the destination in parallel (the meter is a tap of the
gain, not a series stage before the output), and no node of a disabled
kind appears in any connection.  This holds for the rebuild variant
(`initializeAudioChain`, for every ref state) and for the reconnect
variant (`updateAudioChain`, for every ref state once `createAudioNodes`
has constructed the node handles). -/
theorem chain_topology_amended :
    (∀ r : RefsA,
      (initAudioChainA r).2 = specEdgesTap (enabledKindsA r) ∧
      ∀ k ∈ disabledKindsA r, ∀ e ∈ (initAudioChainA r).2, e.1 ≠ k ∧ e.2 ≠ k) ∧
    (∀ (r r' : RefsB) (e0 : List Edge),
      (updateAudioChainB ⟨r, createAudioNodesB r', e0⟩).edges =
        specEdgesTap (enabledKindsB r) ∧
      ∀ k ∈ disabledKindsB r,
        ∀ e ∈ (updateAudioChainB ⟨r, createAudioNodesB r', e0⟩).edges,
          e.1 ≠ k ∧ e.2 ≠ k) := by
  constructor
  · intro r
    rw [edgesA_eq_canonical, enabledKindsA_eq, disabledKindsA_eq]
    exact canonical_chain_core_A r.filterEnabled r.distortionEnabled
      r.bitCrusherEnabled r.delayEnabled r.chorusEnabled r.phaserEnabled
      r.reverbEnabled r.compressorEnabled
  · intro r r' e0
    rw [edgesB_eq_list, enabledKindsB_eq, disabledKindsB_eq]
    exact canonical_chain_core_B r.filterProps.enabled r.distortionProps.enabled
      r.bitCrusherProps.enabled r.delayProps.enabled r.chorusProps.enabled
      r.phaserProps.enabled r.reverbProps.enabled r.compressorProps.enabled

/-- Claim C1, counterexample to the claim as stated: with every effect
disabled (the initial ref state), the rebuilt topology is not the series
path SoundSource, panner, gain, meter, destination that the claim
predicts; the meter-to-destination link does not exist, the gain connects
to the destination directly. -/
theorem chain_meter_not_in_series :
    (initAudioChainA refsA0).2 ≠ specEdgesSeries (enabledKindsA refsA0) ∧
    (NodeId.meter, NodeId.destination) ∉ (initAudioChainA refsA0).2 ∧
    (NodeId.gain, NodeId.destination) ∈ (initAudioChainA refsA0).2 := by
  decide

/-- Witness for C1 at the initial ref state, with the disabled-kind clause
instantiated at the delay kind and the synth-to-panner connection. -/
theorem chain_topology_amended_witness :
    (initAudioChainA refsA0).2 = specEdgesTap (enabledKindsA refsA0) ∧
    ((NodeId.synth, NodeId.panner).1 ≠ NodeId.delay ∧
     (NodeId.synth, NodeId.panner).2 ≠ NodeId.delay) :=
  ⟨(chain_topology_amended.1 refsA0).1,
   (chain_topology_amended.1 refsA0).2 NodeId.delay (by decide)
     (NodeId.synth, NodeId.panner) (by decide)⟩

/-! ## Claims C2 and C5: node lifecycle -/

/-- Claim C2.  One `initializeAudioChain` call performs its twelve
disposals (one per owned kind, in kind order) strictly before any
construction; afterwards every owned kind holds exactly one live node
whose generation is fresh (at least the pre-call next generation), and
every node live after the call is fresh, so no node of a previous build
survives. -/
lemma applyTrace_initTraceA (s : Registry) :
    applyTrace s initTraceA =
      ⟨s.nextGen + 12, some s.nextGen, some (s.nextGen + 1), some (s.nextGen + 2),
       some (s.nextGen + 3), some (s.nextGen + 4), some (s.nextGen + 5),
       some (s.nextGen + 6), some (s.nextGen + 7), some (s.nextGen + 8),
       some (s.nextGen + 9), some (s.nextGen + 10), some (s.nextGen + 11)⟩ := rfl

theorem rebuild_disposes_before_constructing :
    ∀ s : Registry,
      initTraceA = ownedKinds.map RegEvent.dispose ++ ownedKinds.map RegEvent.create ∧
      (∀ k ∈ ownedKinds, ∃ g, (applyTrace s initTraceA).get k = some g ∧ s.nextGen ≤ g) ∧
      (∀ k g, (applyTrace s initTraceA).get k = some g → s.nextGen ≤ g) := by
  intro s
  refine ⟨rfl, ?_, ?_⟩
  · intro k hk
    rw [applyTrace_initTraceA]
    simp only [ownedKinds] at hk
    fin_cases hk <;> exact ⟨_, rfl, by omega⟩
  · intro k g h
    rw [applyTrace_initTraceA] at h
    cases k <;>
      first
        | (simp only [Registry.get, Option.some.injEq] at h
           omega)
        | exact Option.noConfusion h

/-- The registry state of a freshly mounted component, before any node
has been constructed. -/
def reg0 : Registry :=
  ⟨0, none, none, none, none, none, none, none, none, none, none, none, none⟩

/-- Witness for C2: on the empty registry, after the rebuild trace the
delay kind holds one live node of a fresh generation. -/
theorem rebuild_disposes_before_constructing_witness :
    initTraceA = ownedKinds.map RegEvent.dispose ++ ownedKinds.map RegEvent.create ∧
    ∃ g, (applyTrace reg0 initTraceA).get NodeId.delay = some g ∧ reg0.nextGen ≤ g :=
  ⟨(rebuild_disposes_before_constructing reg0).1,
   (rebuild_disposes_before_constructing reg0).2.1 NodeId.delay (by decide)⟩

/-- Claim C5.  The `onBeforeUnmount` teardown that null-safely disposes
every owned node is idempotent: a second call leaves the registry exactly
as the first left it, and after one call no owned node is live. -/
theorem disposeAll_idempotent_empty :
    ∀ s : Registry,
      disposeAllReg (disposeAllReg s) = disposeAllReg s ∧
      ∀ k, (disposeAllReg s).get k = none := by
  intro s
  constructor
  · rfl
  · intro k
    cases k <;> rfl

/-! ## Claim C3: parameter updates never touch topology -/

/-- Claim C3.  Every parameter update of either variant (ref write plus
watcher callback) leaves the connection topology exactly as it was: the
edge set is unchanged by any filter, distortion, bit crusher, delay,
chorus, phaser, reverb or compressor parameter write, in the rebuild
variant and in the reconnect variant alike. -/
theorem param_updates_preserve_topology :
    (∀ (s : StateA) (v : ℚ), (setFilterFreqA v s).edges = s.edges) ∧
    (∀ (s : StateA) (v : ℚ), (setFilterQA v s).edges = s.edges) ∧
    (∀ (s : StateA) (v : FilterKind), (setFilterTypeA v s).edges = s.edges) ∧
    (∀ (s : StateA) (v : ℚ), (setDistortionAmountA v s).edges = s.edges) ∧
    (∀ (s : StateA) (v : ℚ), (setBitCrusherBitsA v s).edges = s.edges) ∧
    (∀ (s : StateA) (v : ℚ), (setDelayTimeA v s).edges = s.edges) ∧
    (∀ (s : StateA) (v : ℚ), (setDelayFeedbackA v s).edges = s.edges) ∧
    (∀ (s : StateA) (v : ℚ), (setDelayWetA v s).edges = s.edges) ∧
    (∀ (s : StateA) (v : ℚ), (setChorusFreqA v s).edges = s.edges) ∧
    (∀ (s : StateA) (v : ℚ), (setChorusDepthA v s).edges = s.edges) ∧
    (∀ (s : StateA) (v : ℚ), (setChorusWetA v s).edges = s.edges) ∧
    (∀ (s : StateA) (v : ℚ), (setPhaserFreqA v s).edges = s.edges) ∧
    (∀ (s : StateA) (v : ℚ), (setPhaserWetA v s).edges = s.edges) ∧
    (∀ (s : StateA) (v : ℚ), (setReverbWetA v s).edges = s.edges) ∧
    (∀ (s : StateA) (v : ℚ), (setCompressorThresholdA v s).edges = s.edges) ∧
    (∀ (s : StateA) (v : ℚ), (setCompressorRatioA v s).edges = s.edges) ∧
    (∀ (s : StateB) (p : FilterProps), (setFilterPropsB p s).edges = s.edges) ∧
    (∀ (s : StateB) (p : DistortionProps), (setDistortionPropsB p s).edges = s.edges) ∧
    (∀ (s : StateB) (p : BitCrusherProps), (setBitCrusherPropsB p s).edges = s.edges) ∧
    (∀ (s : StateB) (p : DelayProps), (setDelayPropsB p s).edges = s.edges) ∧
    (∀ (s : StateB) (p : ReverbProps), (setReverbPropsB p s).edges = s.edges) ∧
    (∀ (s : StateB) (p : CompressorProps), (setCompressorPropsB p s).edges = s.edges) ∧
    (∀ (s : StateB) (p : ChorusProps), (setChorusPropsB p s).edges = s.edges) ∧
    (∀ (s : StateB) (p : PhaserProps), (setPhaserPropsB p s).edges = s.edges) :=
  ⟨fun _ _ => rfl, fun _ _ => rfl, fun _ _ => rfl, fun _ _ => rfl, fun _ _ => rfl,
   fun _ _ => rfl, fun _ _ => rfl, fun _ _ => rfl, fun _ _ => rfl, fun _ _ => rfl,
   fun _ _ => rfl, fun _ _ => rfl, fun _ _ => rfl, fun _ _ => rfl, fun _ _ => rfl,
   fun _ _ => rfl, fun _ _ => rfl, fun _ _ => rfl, fun _ _ => rfl, fun _ _ => rfl,
   fun _ _ => rfl, fun _ _ => rfl, fun _ _ => rfl, fun _ _ => rfl⟩

/-! ## Claim C6: watcher callbacks are no-ops without a node -/

/-- Claim C6.  Every watcher callback is a no-op when the target node
handle is null (the whole node state is returned unchanged, nothing
throws), and applies the written value to the node once it exists.  One
conjunct per watcher callback of the rebuild variant, then of the
reconnect variant. -/
theorem param_update_noop_without_node :
    (∀ (n : Nodes) (v : ℚ), (n.filter = none → cbFilterFreq v n = n) ∧
      ∀ x, n.filter = some x → (cbFilterFreq v n).filter = some { x with frequency := v }) ∧
    (∀ (n : Nodes) (v : ℚ), (n.filter = none → cbFilterQ v n = n) ∧
      ∀ x, n.filter = some x → (cbFilterQ v n).filter = some { x with q := v }) ∧
    (∀ (n : Nodes) (v : FilterKind), (n.filter = none → cbFilterType v n = n) ∧
      ∀ x, n.filter = some x → (cbFilterType v n).filter = some { x with ftype := v }) ∧
    (∀ (n : Nodes) (v : ℚ), (n.distortion = none → cbDistortionAmount v n = n) ∧
      ∀ x, n.distortion = some x →
        (cbDistortionAmount v n).distortion = some { x with amount := v }) ∧
    (∀ (n : Nodes) (v : ℚ), (n.bitCrusher = none → cbBitCrusherBits v n = n) ∧
      ∀ x, n.bitCrusher = some x →
        (cbBitCrusherBits v n).bitCrusher = some { x with bits := v }) ∧
    (∀ (n : Nodes) (v : ℚ), (n.delay = none → cbDelayTime v n = n) ∧
      ∀ x, n.delay = some x → (cbDelayTime v n).delay = some { x with delayTime := v }) ∧
    (∀ (n : Nodes) (v : ℚ), (n.delay = none → cbDelayFeedback v n = n) ∧
      ∀ x, n.delay = some x → (cbDelayFeedback v n).delay = some { x with feedback := v }) ∧
    (∀ (n : Nodes) (v : ℚ), (n.delay = none → cbDelayWet v n = n) ∧
      ∀ x, n.delay = some x → (cbDelayWet v n).delay = some { x with wet := v }) ∧
    (∀ (n : Nodes) (v : ℚ), (n.chorus = none → cbChorusFreq v n = n) ∧
      ∀ x, n.chorus = some x → (cbChorusFreq v n).chorus = some { x with frequency := v }) ∧
    (∀ (n : Nodes) (v : ℚ), (n.chorus = none → cbChorusDepth v n = n) ∧
      ∀ x, n.chorus = some x → (cbChorusDepth v n).chorus = some { x with depth := v }) ∧
    (∀ (n : Nodes) (v : ℚ), (n.chorus = none → cbChorusWet v n = n) ∧
      ∀ x, n.chorus = some x → (cbChorusWet v n).chorus = some { x with wet := v }) ∧
    (∀ (n : Nodes) (v : ℚ), (n.phaser = none → cbPhaserFreq v n = n) ∧
      ∀ x, n.phaser = some x → (cbPhaserFreq v n).phaser = some { x with frequency := v }) ∧
    (∀ (n : Nodes) (v : ℚ), (n.phaser = none → cbPhaserWet v n = n) ∧
      ∀ x, n.phaser = some x → (cbPhaserWet v n).phaser = some { x with wet := v }) ∧
    (∀ (n : Nodes) (v : ℚ), (n.reverb = none → cbReverbWet v n = n) ∧
      ∀ x, n.reverb = some x → (cbReverbWet v n).reverb = some { x with wet := v }) ∧
    (∀ (n : Nodes) (v : ℚ), (n.compressor = none → cbCompressorThreshold v n = n) ∧
      ∀ x, n.compressor = some x →
        (cbCompressorThreshold v n).compressor = some { x with threshold := v }) ∧
    (∀ (n : Nodes) (v : ℚ), (n.compressor = none → cbCompressorRatio v n = n) ∧
      ∀ x, n.compressor = some x →
        (cbCompressorRatio v n).compressor = some { x with ratio := v }) ∧
    (∀ (n : Nodes) (p : FilterProps), (n.filter = none → cbFilterPropsB p n = n) ∧
      ∀ x, n.filter = some x → (cbFilterPropsB p n).filter =
        some { x with frequency := p.freq, q := p.q, ftype := p.ftype }) ∧
    (∀ (n : Nodes) (p : DistortionProps), (n.distortion = none → cbDistortionPropsB p n = n) ∧
      ∀ x, n.distortion = some x →
        (cbDistortionPropsB p n).distortion = some { x with amount := p.amount }) ∧
    (∀ (n : Nodes) (p : BitCrusherProps), (n.bitCrusher = none → cbBitCrusherPropsB p n = n) ∧
      ∀ x, n.bitCrusher = some x →
        (cbBitCrusherPropsB p n).bitCrusher = some { x with bits := p.bits }) ∧
    (∀ (n : Nodes) (p : DelayProps), (n.delay = none → cbDelayPropsB p n = n) ∧
      ∀ x, n.delay = some x → (cbDelayPropsB p n).delay =
        some { x with delayTime := p.time, feedback := p.feedback, wet := p.wet }) ∧
    (∀ (n : Nodes) (p : ReverbProps), (n.reverb = none → cbReverbPropsB p n = n) ∧
      ∀ x, n.reverb = some x → (cbReverbPropsB p n).reverb =
        some { x with decay := p.roomSize, wet := p.wet }) ∧
    (∀ (n : Nodes) (p : CompressorProps), (n.compressor = none → cbCompressorPropsB p n = n) ∧
      ∀ x, n.compressor = some x → (cbCompressorPropsB p n).compressor =
        some { x with threshold := p.threshold, ratio := p.ratio }) ∧
    (∀ (n : Nodes) (p : ChorusProps), (n.chorus = none → cbChorusPropsB p n = n) ∧
      ∀ x, n.chorus = some x → (cbChorusPropsB p n).chorus =
        some { x with frequency := p.freq, depth := p.depth, wet := p.wet }) ∧
    (∀ (n : Nodes) (p : PhaserProps), (n.phaser = none → cbPhaserPropsB p n = n) ∧
      ∀ x, n.phaser = some x → (cbPhaserPropsB p n).phaser =
        some { x with frequency := p.freq, octaves := p.depth, wet := p.wet }) :=
  ⟨fun n v => ⟨fun h => by unfold cbFilterFreq; rw [h],
     fun x hx => by unfold cbFilterFreq; rw [hx]⟩,
   fun n v => ⟨fun h => by unfold cbFilterQ; rw [h],
     fun x hx => by unfold cbFilterQ; rw [hx]⟩,
   fun n v => ⟨fun h => by unfold cbFilterType; rw [h],
     fun x hx => by unfold cbFilterType; rw [hx]⟩,
   fun n v => ⟨fun h => by unfold cbDistortionAmount; rw [h],
     fun x hx => by unfold cbDistortionAmount; rw [hx]⟩,
   fun n v => ⟨fun h => by unfold cbBitCrusherBits; rw [h],
     fun x hx => by unfold cbBitCrusherBits; rw [hx]⟩,
   fun n v => ⟨fun h => by unfold cbDelayTime; rw [h],
     fun x hx => by unfold cbDelayTime; rw [hx]⟩,
   fun n v => ⟨fun h => by unfold cbDelayFeedback; rw [h],
     fun x hx => by unfold cbDelayFeedback; rw [hx]⟩,
   fun n v => ⟨fun h => by unfold cbDelayWet; rw [h],
     fun x hx => by unfold cbDelayWet; rw [hx]⟩,
   fun n v => ⟨fun h => by unfold cbChorusFreq; rw [h],
     fun x hx => by unfold cbChorusFreq; rw [hx]⟩,
   fun n v => ⟨fun h => by unfold cbChorusDepth; rw [h],
     fun x hx => by unfold cbChorusDepth; rw [hx]⟩,
   fun n v => ⟨fun h => by unfold cbChorusWet; rw [h],
     fun x hx => by unfold cbChorusWet; rw [hx]⟩,
   fun n v => ⟨fun h => by unfold cbPhaserFreq; rw [h],
     fun x hx => by unfold cbPhaserFreq; rw [hx]⟩,
   fun n v => ⟨fun h => by unfold cbPhaserWet; rw [h],
     fun x hx => by unfold cbPhaserWet; rw [hx]⟩,
   fun n v => ⟨fun h => by unfold cbReverbWet; rw [h],
     fun x hx => by unfold cbReverbWet; rw [hx]⟩,
   fun n v => ⟨fun h => by unfold cbCompressorThreshold; rw [h],
     fun x hx => by unfold cbCompressorThreshold; rw [hx]⟩,
   fun n v => ⟨fun h => by unfold cbCompressorRatio; rw [h],
     fun x hx => by unfold cbCompressorRatio; rw [hx]⟩,
   fun n p => ⟨fun h => by unfold cbFilterPropsB; rw [h],
     fun x hx => by unfold cbFilterPropsB; rw [hx]⟩,
   fun n p => ⟨fun h => by unfold cbDistortionPropsB; rw [h],
     fun x hx => by unfold cbDistortionPropsB; rw [hx]⟩,
   fun n p => ⟨fun h => by unfold cbBitCrusherPropsB; rw [h],
     fun x hx => by unfold cbBitCrusherPropsB; rw [hx]⟩,
   fun n p => ⟨fun h => by unfold cbDelayPropsB; rw [h],
     fun x hx => by unfold cbDelayPropsB; rw [hx]⟩,
   fun n p => ⟨fun h => by unfold cbReverbPropsB; rw [h],
     fun x hx => by unfold cbReverbPropsB; rw [hx]⟩,
   fun n p => ⟨fun h => by unfold cbCompressorPropsB; rw [h],
     fun x hx => by unfold cbCompressorPropsB; rw [hx]⟩,
   fun n p => ⟨fun h => by unfold cbChorusPropsB; rw [h],
     fun x hx => by unfold cbChorusPropsB; rw [hx]⟩,
   fun n p => ⟨fun h => by unfold cbPhaserPropsB; rw [h],
     fun x hx => by unfold cbPhaserPropsB; rw [hx]⟩⟩

/-- The node state with no node constructed yet. -/
def nodesNone : Nodes :=
  ⟨none, none, none, none, none, none, none, none, none, none, none, none⟩

/-- The node state right after a rebuild from the initial refs. -/
def nodesA0 : Nodes := (initAudioChainA refsA0).1

/-- Witness for C6: a filter frequency write with no filter node leaves
the node state untouched, and the same write with the freshly built
filter node sets its frequency. -/
theorem param_update_noop_without_node_witness :
    cbFilterFreq 500 nodesNone = nodesNone ∧
    (cbFilterFreq 500 nodesA0).filter =
      some { frequency := 500, q := 1, ftype := FilterKind.lowpass } :=
  ⟨(param_update_noop_without_node.1 nodesNone 500).1 rfl,
   (param_update_noop_without_node.1 nodesA0 500).2
     { frequency := 2000, q := 1, ftype := FilterKind.lowpass } rfl⟩

/-! ## Claim C4: wet values survive a disable/enable cycle -/

/-- Claim C4.  For each effect with a wet parameter (delay, chorus,
phaser, reverb), setting the wet ref, toggling the effect off and
toggling it on again leaves the rebuilt node with exactly the wet value
last set; and on every rebuild each effect entering the chain has its
current wet ref re-applied at connection time. -/
theorem wet_survives_disable_enable :
    (∀ (s : StateA) (v : ℚ),
      ((setEffectEnabledA .delay true (setEffectEnabledA .delay false
          (setDelayWetA v s))).nodes.delay).map DelayNode.wet = some v ∧
      ((setEffectEnabledA .chorus true (setEffectEnabledA .chorus false
          (setChorusWetA v s))).nodes.chorus).map ChorusNode.wet = some v ∧
      ((setEffectEnabledA .phaser true (setEffectEnabledA .phaser false
          (setPhaserWetA v s))).nodes.phaser).map PhaserNode.wet = some v ∧
      ((setEffectEnabledA .reverb true (setEffectEnabledA .reverb false
          (setReverbWetA v s))).nodes.reverb).map ReverbNode.wet = some v) ∧
    (∀ r : RefsA,
      (r.delayEnabled = true →
        ((initAudioChainA r).1.delay).map DelayNode.wet = some r.delayWet) ∧
      (r.chorusEnabled = true →
        ((initAudioChainA r).1.chorus).map ChorusNode.wet = some r.chorusWet) ∧
      (r.phaserEnabled = true →
        ((initAudioChainA r).1.phaser).map PhaserNode.wet = some r.phaserWet) ∧
      (r.reverbEnabled = true →
        ((initAudioChainA r).1.reverb).map ReverbNode.wet = some r.reverbWet)) := by
  constructor
  · intro s v
    exact ⟨rfl, rfl, rfl, rfl⟩
  · intro r
    refine ⟨fun h => ?_, fun h => ?_, fun h => ?_, fun h => ?_⟩ <;>
      simp [initAudioChainA, h]

/-- The initial refs with the delay enabled. -/
def refsA1 : RefsA := { refsA0 with delayEnabled := true }

/-- Witness for C4: rebuilding with the delay enabled applies the delay
wet ref to the fresh delay node. -/
theorem wet_survives_disable_enable_witness :
    ((initAudioChainA refsA1).1.delay).map DelayNode.wet = some refsA1.delayWet :=
  (wet_survives_disable_enable.2 refsA1).1 rfl

/-! ## Claim C7: retriggering an active note -/

lemma mem_addNote (note : String) (l : List String) : note ∈ addNote note l := by
  unfold addNote
  split
  · assumption
  · simp

lemma addNote_idem (note : String) (l : List String) :
    addNote note (addNote note l) = addNote note l := by
  rw [addNote, if_pos (mem_addNote note l)]

lemma not_mem_removeNote (note : String) (l : List String) :
    note ∉ removeNote note l := by
  simp [removeNote, List.mem_filter]

/-- Claim C7.  `noteOn` forwards the trigger to every synth even when the
note is already active, and a repeated `noteOn` leaves the active-note
set unchanged (every synth receives the attack twice); `noteOn` puts the
note in the set, `noteOff` removes it, and two `noteOn` calls from an
empty set leave exactly the one-element set holding the note. -/
theorem noteOn_retrigger_keeps_voices :
    ∀ (s : GraphState) (note : String),
      (noteOn note (noteOn note s)).activeNotes = (noteOn note s).activeNotes ∧
      (noteOn note (noteOn note s)).synths =
        s.synths.map (fun v => { v with attacks := v.attacks ++ [note, note] }) ∧
      note ∈ (noteOn note s).activeNotes ∧
      note ∉ (noteOff note s).activeNotes ∧
      (s.activeNotes = [] → (noteOn note (noteOn note s)).activeNotes = [note]) := by
  intro s note
  refine ⟨?_, ?_, ?_, ?_, ?_⟩
  · exact addNote_idem note s.activeNotes
  · simp [noteOn, List.map_map, Function.comp, List.append_assoc]
  · exact mem_addNote note s.activeNotes
  · exact not_mem_removeNote note s.activeNotes
  · intro hempty
    show addNote note (addNote note s.activeNotes) = [note]
    rw [hempty]
    simp [addNote]

/-- The module state with one synth and no active note. -/
def gs0 : GraphState := ⟨[⟨[], []⟩], []⟩

/-- Witness for C7: two `noteOn` calls for C4 from the empty set leave
exactly the singleton set. -/
theorem noteOn_retrigger_keeps_voices_witness :
    (noteOn noteC4 (noteOn noteC4 gs0)).activeNotes = [noteC4] :=
  (noteOn_retrigger_keeps_voices gs0 noteC4).2.2.2.2 rfl

/-! ## Claim C10: the reconnect variant never constructs or disposes -/

/-- Claim C10.  In the reconnect variant, `updateAudioChain` changes only
the edge list: node handles and refs are returned untouched, every
enable/disable toggle (and any sequence of toggles) leaves the node
handles exactly as `createAudioNodes` made them, and `createAudioNodes`
constructs every one of the twelve handles. -/
theorem updateChain_reconnect_only :
    (∀ s : StateB,
      (updateAudioChainB s).nodes = s.nodes ∧ (updateAudioChainB s).refs = s.refs) ∧
    (∀ (k : EffectKind) (b : Bool) (s : StateB),
      (setEffectEnabledB k b s).nodes = s.nodes) ∧
    (∀ (ops : List (EffectKind × Bool)) (s : StateB),
      (applyTogglesB ops s).nodes = s.nodes) ∧
    (∀ r : RefsB,
      (createAudioNodesB r).synth.isSome = true ∧
      (createAudioNodesB r).filter.isSome = true ∧
      (createAudioNodesB r).distortion.isSome = true ∧
      (createAudioNodesB r).bitCrusher.isSome = true ∧
      (createAudioNodesB r).delay.isSome = true ∧
      (createAudioNodesB r).chorus.isSome = true ∧
      (createAudioNodesB r).phaser.isSome = true ∧
      (createAudioNodesB r).reverb.isSome = true ∧
      (createAudioNodesB r).compressor.isSome = true ∧
      (createAudioNodesB r).panner.isSome = true ∧
      (createAudioNodesB r).gain.isSome = true ∧
      (createAudioNodesB r).meter.isSome = true) := by
  have hu : ∀ s : StateB,
      (updateAudioChainB s).nodes = s.nodes ∧ (updateAudioChainB s).refs = s.refs := by
    intro s
    unfold updateAudioChainB
    cases s.nodes.synth <;> cases s.nodes.panner <;> cases s.nodes.gain <;>
      exact ⟨rfl, rfl⟩
  have ht : ∀ (k : EffectKind) (b : Bool) (s : StateB),
      (setEffectEnabledB k b s).nodes = s.nodes := by
    intro k b s
    exact (hu { s with refs := updEnabledB k b s.refs }).1
  have hseq : ∀ (ops : List (EffectKind × Bool)) (s : StateB),
      (applyTogglesB ops s).nodes = s.nodes := by
    intro ops
    induction ops with
    | nil => intro s; rfl
    | cons op rest ih =>
      intro s
      have hstep : applyTogglesB (op :: rest) s =
          applyTogglesB rest (setEffectEnabledB op.1 op.2 s) := rfl
      rw [hstep, ih, ht]
  exact ⟨hu, ht, hseq,
    fun r => ⟨rfl, rfl, rfl, rfl, rfl, rfl, rfl, rfl, rfl, rfl, rfl, rfl⟩⟩

/-! ## Claim C8: published meter values -/

/-- Claim C8, corrected.  Every value the polling tick publishes is
non-negative, a negative-infinity raw reading publishes exactly 0, and
the published value lies within 0..1 exactly for raw readings of at most
0 dBFS; the code applies no clamp, so readings above 0 dBFS publish
values above 1. -/
theorem meter_publish_range_amended :
    ∀ r : MeterReading,
      0 ≤ publishMeter r ∧ (nonposReading r → publishMeter r ≤ 1) ∧
        publishMeter MeterReading.negInf = 0 := by
  intro r
  refine ⟨?_, ?_, rfl⟩
  · cases r with
    | negInf => exact le_refl 0
    | db d => exact Real.rpow_nonneg (by norm_num) _
  · intro hnp
    cases r with
    | negInf => exact zero_le_one
    | db d =>
      have hq : d ≤ 0 := hnp
      have hd : ((d : ℝ) / 20) ≤ 0 := by
        have hc : (d : ℝ) ≤ 0 := by exact_mod_cast hq
        linarith
      exact Real.rpow_le_one_of_one_le_of_nonpos (by norm_num) hd

/-- Claim C8, counterexample to the claim as stated: a raw reading of
20 dBFS is published as 10, outside 0..1. -/
theorem meter_publish_can_exceed_one :
    publishMeter (MeterReading.db 20) = 10 ∧ 1 < publishMeter (MeterReading.db 20) := by
  have h : publishMeter (MeterReading.db 20) = 10 := by
    show (10 : ℝ) ^ (((20 : ℚ) : ℝ) / 20) = 10
    have h20 : (((20 : ℚ) : ℝ) / 20) = 1 := by norm_num
    rw [h20, Real.rpow_one]
  refine ⟨h, ?_⟩
  rw [h]
  norm_num

/-- Witness for C8: a 0 dBFS reading publishes a value of at most 1, and
the negative-infinity reading publishes 0. -/
theorem meter_publish_range_amended_witness :
    publishMeter (MeterReading.db 0) ≤ 1 ∧ publishMeter MeterReading.negInf = 0 :=
  ⟨(meter_publish_range_amended (MeterReading.db 0)).2.1 (by decide),
   (meter_publish_range_amended MeterReading.negInf).2.2⟩

/-! ## Claim C9: the envelope editor preserves the envelope invariant -/

lemma clamp_time_nonneg (v : ℚ) : (0 : ℚ) ≤ max (1/100) v :=
  le_trans (by norm_num) (le_max_left _ _)

lemma clamp01_nonneg (v : ℚ) : (0 : ℚ) ≤ max 0 (min 1 v) := le_max_left 0 _

lemma clamp01_le_one (v : ℚ) : max 0 (min 1 v) ≤ 1 :=
  max_le (by norm_num) (min_le_left _ _)

/-- Claim C9.  Both envelope drag handlers preserve the envelope
invariant: from a well-formed envelope (non-negative times, 0..1
sustain), any drag update again yields non-negative attack, hold, decay
and release (the dragged time fields are clamped to at least 0.01) and a
sustain within 0..1, for any mouse position and geometry. -/
theorem drag_preserves_envelope_invariant :
    (∀ (p : DragPoint) (cX rL rW cY rT rH sW sH : ℚ) (env : Envelope),
      env.inv → (handleMouseMoveA p cX rL rW cY rT rH sW sH env).inv) ∧
    (∀ (dp : Option DragPoint) (cY rT : ℚ) (env : Envelope),
      env.inv → (handleMouseMoveEnv dp cY rT env).inv) := by
  constructor
  · intro p cX rL rW cY rT rH sW sH env hinv
    obtain ⟨h1, h2, h3, h4, h5, h6⟩ := hinv
    cases p
    · exact ⟨clamp_time_nonneg _, h2, h3, h4, h5, h6⟩
    · exact ⟨h1, clamp_time_nonneg _, h3, h4, h5, h6⟩
    · exact ⟨h1, h2, clamp_time_nonneg _, h4, h5, h6⟩
    · exact ⟨h1, h2, clamp_time_nonneg _, h4, clamp01_nonneg _, clamp01_le_one _⟩
  · intro dp cY rT env hinv
    obtain ⟨h1, h2, h3, h4, h5, h6⟩ := hinv
    match dp with
    | none => exact ⟨h1, h2, h3, h4, h5, h6⟩
    | some .attack => exact ⟨h1, h2, h3, h4, h5, h6⟩
    | some .hold => exact ⟨h1, h2, h3, h4, h5, h6⟩
    | some .decay => exact ⟨h1, h2, h3, h4, h5, h6⟩
    | some .sustain =>
      exact ⟨h1, h2, h3, h4,
        sub_nonneg.mpr (max_le (by norm_num) (min_le_right _ _)),
        sub_le_self 1 (le_max_left 0 _)⟩

/-- A well-formed envelope with one-second stages and full sustain. -/
def envW : Envelope :=
  { attack := 1, hold := 1, decay := 1, sustain := 1, release := 2 }

/-- Witness for C9: a sustain drag on a well-formed envelope, in both
handlers, yields a well-formed envelope. -/
theorem drag_preserves_envelope_invariant_witness :
    (handleMouseMoveA DragPoint.sustain 5 0 10 5 0 10 400 300 envW).inv ∧
    (handleMouseMoveEnv (some DragPoint.sustain) 5 0 envW).inv :=
  ⟨drag_preserves_envelope_invariant.1 DragPoint.sustain 5 0 10 5 0 10 400 300 envW
     (by decide),
   drag_preserves_envelope_invariant.2 (some DragPoint.sustain) 5 0 envW (by decide)⟩
